import Mathlib

/-!
Shallow embedding of the Python-Module-05 repository (exercises ex1 and ex2).

`src/ex1/data_stream.py` defines three polymorphic stream workers
(`SensorStream`, `TransactionStream`, `EventStream`) and an orchestrator
(`StreamProcessor`).  `src/ex2/nexus_pipeline.py` defines three pipeline
stages (`InputStage`, `TransformStage`, `OutputStage`), three format
adapters (`JSONAdapter`, `CSVAdapter`, `StreamAdapter`) and an orchestrator
(`NexusManager`).

Python runtime values that flow through these functions are modelled by the
inductive type `PyVal` (None, bool, int, float, str, list, dict).  Python
floats are modelled by exact rationals `ℚ`: every numeric value exercised by
the theorems below is small and exactly representable, so no rounding
behaviour of binary doubles is load-bearing.  Python's builtin `float(s)`
parser is modelled on plain decimal literals (optional sign, digits, at most
one dot, surrounding whitespace); exotic forms (exponents, inf/nan,
underscores) are outside the modelled fragment and no theorem depends on
them.  `str.strip`/`str.lower` are modelled by `String.trim`/`String.toLower`
(ASCII, which covers every string the code and theorems use).
-/

set_option maxRecDepth 10000

attribute [local semireducible] Rat.add Rat.sub Rat.mul Rat.inv

inductive PyVal where
  | none
  | bool (b : Bool)
  | int (n : Int)
  | float (q : ℚ)
  | str (s : String)
  | list (xs : List PyVal)
  | dict (entries : List (String × PyVal))

/-- Python dicts are modelled as association lists keyed by strings; the code
under verification only ever uses string keys. -/
abbrev PyDict := List (String × PyVal)

def PyVal.isList : PyVal → Bool
  | .list _ => true
  | _ => false

def PyVal.isNone : PyVal → Bool
  | .none => true
  | _ => false

def PyVal.isDict : PyVal → Bool
  | .dict _ => true
  | _ => false

/-- Python truthiness (`bool(v)`), as used by `dict.get(...)` checks in the
pipeline stages. -/
def PyVal.truthy : PyVal → Bool
  | .none => false
  | .bool b => b
  | .int n => if n = 0 then false else true
  | .float q => if q = 0 then false else true
  | .str s => if s = "" then false else true
  | .list xs => !xs.isEmpty
  | .dict es => !es.isEmpty

/-- Lookup of a key in a dict (`k in d` / `d[k]` / `d.get(k)`). -/
def dictLookup : PyDict → String → Option PyVal
  | [], _ => Option.none
  | (k, v) :: rest, key => if k = key then Option.some v else dictLookup rest key

/-- `d.get(key, default)`. -/
def dictGetD (d : PyDict) (key : String) (dflt : PyVal) : PyVal :=
  (dictLookup d key).getD dflt

/-- `d[key] = v`: replace the value at an existing key in place, otherwise
append the new entry (Python dicts keep the original insertion position of an
updated key). -/
def dictSet : PyDict → String → PyVal → PyDict
  | [], k, v => [(k, v)]
  | (k2, v2) :: rest, k, v =>
    if k2 = k then (k2, v) :: rest else (k2, v2) :: dictSet rest k v

/-- `str(n)` for a Python int. -/
def intRepr (n : Int) : String :=
  if n < 0 then "-" ++ Nat.repr n.natAbs else Nat.repr n.toNat

/-- Decimal digits of the fractional part `q ∈ [0,1)`, with fuel; the fuel is
never exhausted on the terminating decimals the theorems evaluate. -/
def fracDigits : ℚ → ℕ → List ℕ
  | _, 0 => []
  | q, fuel + 1 =>
    if q = 0 then []
    else
      let d : ℤ := Int.floor (q * 10)
      d.toNat :: fracDigits (q * 10 - (d : ℚ)) fuel

def pyReprFloatNN (q : ℚ) : String :=
  let ip : ℤ := Int.floor q
  let ds := fracDigits (q - (ip : ℚ)) 40
  Nat.repr ip.toNat ++ "."
    ++ (if ds.isEmpty then "0" else ⟨ds.map (fun d => Char.ofNat (48 + d))⟩)

/-- `str(x)` for a Python float with a short terminating decimal expansion
(always shows at least one fractional digit, e.g. `0.0`, `1.5`, `55.0`). -/
def pyReprFloat (q : ℚ) : String :=
  if q < 0 then "-" ++ pyReprFloatNN (-q) else pyReprFloatNN q

/-- Round to the nearest integer, ties to even — the rounding used by
Python's fixed-point `format` specifiers. -/
def roundHalfEven (q : ℚ) : ℤ :=
  let f : ℤ := Int.floor q
  let r : ℚ := q - (f : ℚ)
  if r > 1 / 2 then f + 1
  else if r < 1 / 2 then f
  else if f % 2 = 0 then f else f + 1

/-- Python `format(q, ".0f")`. -/
def pyFormatF0 (q : ℚ) : String :=
  if q < 0 then "-" ++ Nat.repr (roundHalfEven (-q)).toNat
  else Nat.repr (roundHalfEven q).toNat

def pyFormatF1NN (q : ℚ) : String :=
  let n := (roundHalfEven (q * 10)).toNat
  Nat.repr (n / 10) ++ "." ++ Nat.repr (n % 10)

/-- Python `format(q, ".1f")`. -/
def pyFormatF1 (q : ℚ) : String :=
  if q < 0 then "-" ++ pyFormatF1NN (-q) else pyFormatF1NN q

mutual

/-- `repr(v)` for a Python value (nested containers rendered recursively). -/
def pyRepr : PyVal → String
  | .none => "None"
  | .bool true => "True"
  | .bool false => "False"
  | .int n => intRepr n
  | .float q => pyReprFloat q
  | .str s => "'" ++ s ++ "'"
  | .list xs => "[" ++ pyReprList xs ++ "]"
  | .dict es => "\x7b" ++ pyReprDict es ++ "\x7d"

def pyReprList : List PyVal → String
  | [] => ""
  | [x] => pyRepr x
  | x :: y :: rest => pyRepr x ++ ", " ++ pyReprList (y :: rest)

def pyReprDict : List (String × PyVal) → String
  | [] => ""
  | [(k, v)] => "'" ++ k ++ "': " ++ pyRepr v
  | (k, v) :: e :: rest => "'" ++ k ++ "': " ++ pyRepr v ++ ", " ++ pyReprDict (e :: rest)

end

/-- `str(v)` for a Python value (strings shown bare, otherwise as `repr`). -/
def pyStr (v : PyVal) : String :=
  match v with
  | .str s => s
  | _ => pyRepr v

def dropWhileWS : List Char → List Char
  | [] => []
  | c :: cs => if c.isWhitespace then dropWhileWS cs else c :: cs

/-- Python `s.strip()`: remove leading and trailing whitespace. -/
def strStrip (s : String) : String :=
  ⟨(dropWhileWS ((dropWhileWS s.data).reverse)).reverse⟩

def charLower (c : Char) : Char :=
  if 'A' ≤ c ∧ c ≤ 'Z' then Char.ofNat (c.toNat + 32) else c

/-- Python `s.lower()` (ASCII; the code only compares ASCII strings). -/
def strLower (s : String) : String :=
  ⟨s.data.map charLower⟩

/-- Split a character list at the first occurrence of `c`; `none` when `c`
does not occur. -/
def charListSplitFirst (c : Char) : List Char → Option (List Char × List Char)
  | [] => Option.none
  | x :: xs =>
    if x = c then Option.some ([], xs)
    else
      match charListSplitFirst c xs with
      | Option.some p => Option.some (x :: p.1, p.2)
      | Option.none => Option.none

def charListStarts : List Char → List Char → Bool
  | [], _ => true
  | _ :: _, [] => false
  | c :: cs, d :: ds => c = d && charListStarts cs ds

/-- Python `s.startswith(p)`. -/
def strStarts (s p : String) : Bool :=
  charListStarts p.data s.data

def digitsVal (cs : List Char) : ℕ :=
  cs.foldl (fun acc c => acc * 10 + (c.toNat - 48)) 0

/-- Model of Python's builtin `float(s)` on plain decimal literals: optional
surrounding whitespace, optional sign, digits with at most one dot. -/
def pyParseFloat (s : String) : Option ℚ :=
  let t := (strStrip s).data
  let sgn : ℚ :=
    match t with
    | '-' :: _ => -1
    | _ => 1
  let body : List Char :=
    match t with
    | '-' :: rest => rest
    | '+' :: rest => rest
    | _ => t
  match charListSplitFirst '.' body with
  | Option.none =>
    if !body.isEmpty && body.all Char.isDigit then
      Option.some (sgn * (digitsVal body : ℚ))
    else Option.none
  | Option.some p =>
    if !(p.1 ++ p.2).isEmpty && (p.1 ++ p.2).all Char.isDigit then
      Option.some (sgn * (digitsVal (p.1 ++ p.2) : ℚ) / ((10 : ℚ) ^ p.2.length))
    else Option.none

/-- Python `s.split(":", 1)` when `":" in s`: the text before the first colon
and everything after it. -/
def splitFirstColon (s : String) : Option (String × String) :=
  match charListSplitFirst ':' s.data with
  | Option.some p => Option.some (⟨p.1⟩, ⟨p.2⟩)
  | Option.none => Option.none

/-- Python `s.split("\n")`. -/
def splitLinesCL : List Char → List (List Char)
  | [] => [[]]
  | c :: cs =>
    if c = '\n' then [] :: splitLinesCL cs
    else
      match splitLinesCL cs with
      | [] => [[c]]
      | l :: ls => (c :: l) :: ls

/-! ### ex1: `data_stream.py` -/

structure SensorState where
  history : List ℚ

structure TransState where
  operations_count : ℕ
  total_net_flow : ℚ

structure EventState where
  events_count : ℕ
  error_count : ℕ

/-- The three `DataStream` subclasses of `src/ex1/data_stream.py`, each with
its identifier and its mutable accumulated state. -/
inductive DataStream where
  | sensor (id : String) (st : SensorState)
  | trans (id : String) (st : TransState)
  | event (id : String) (st : EventState)

def DataStream.stream_id : DataStream → String
  | .sensor i _ => i
  | .trans i _ => i
  | .event i _ => i

/-- The per-item guard and parse of `SensorStream.process_batch`:
`isinstance(item, str) and ":" in item`, then `float(value_str)` on the part
after the first colon; `None` when the item is skipped. -/
def sensorItemVal (item : PyVal) : Option ℚ :=
  match item with
  | .str s =>
    match splitFirstColon s with
    | Option.some (_, valueStr) => pyParseFloat valueStr
    | Option.none => Option.none
  | _ => Option.none

/-- One iteration of the `SensorStream.process_batch` loop over the
accumulator (history, batch_sum, current_batch_count). -/
def sensorFold (acc : List ℚ × ℚ × ℕ) (item : PyVal) : List ℚ × ℚ × ℕ :=
  match sensorItemVal item with
  | Option.some v => (acc.1 ++ [v], acc.2.1 + v, acc.2.2 + 1)
  | Option.none => acc

/-- The per-item guard and parse of `TransactionStream.process_batch`: the
action before the first colon paired with the parsed number after it. -/
def transItemVal (item : PyVal) : Option (String × ℚ) :=
  match item with
  | .str s =>
    match splitFirstColon s with
    | Option.some (action, valueStr) => (pyParseFloat valueStr).map (fun v => (action, v))
    | Option.none => Option.none
  | _ => Option.none

/-- One iteration of the `TransactionStream.process_batch` loop over the
accumulator (total_net_flow, operations_count, current_batch_count). -/
def transFold (acc : ℚ × ℕ × ℕ) (item : PyVal) : ℚ × ℕ × ℕ :=
  match transItemVal item with
  | Option.some av =>
    let nf :=
      if strLower (strStrip av.1) = "buy" then acc.1 + av.2
      else if strLower (strStrip av.1) = "sell" then acc.1 - av.2
      else acc.1
    (nf, acc.2.1 + 1, acc.2.2 + 1)
  | Option.none => acc

/-- One iteration of the `EventStream.process_batch` loop over the
accumulator (current_batch_count, current_error_count, events_count,
error_count). -/
def eventFold (acc : ℕ × ℕ × ℕ × ℕ) (item : PyVal) : ℕ × ℕ × ℕ × ℕ :=
  match item with
  | .str s =>
    let e := if strLower (strStrip s) = "error" then 1 else 0
    (acc.1 + 1, acc.2.1 + e, acc.2.2.1 + 1, acc.2.2.2 + e)
  | _ => acc

/-- `process_batch` of each `DataStream` subclass.  The Python methods mutate
`self` and return a summary string, raising `ValueError` when the batch is not
a list; this is modelled as a pair of the outcome (`Except`) and the
post-call worker state. -/
def DataStream.process_batch : DataStream → PyVal → Except String String × DataStream
  | .sensor i st, .list items =>
    let r := items.foldl sensorFold (st.history, 0, 0)
    let avg : ℚ := if r.2.2 > 0 then r.2.1 / (r.2.2 : ℚ) else 0
    (Except.ok ("Sensor analysis: " ++ Nat.repr r.2.2 ++ " readings processed, avg: "
        ++ pyReprFloat avg),
     .sensor i ⟨r.1⟩)
  | .sensor i st, _ => (Except.error "data_batch should be a list!", .sensor i st)
  | .trans i st, .list items =>
    let r := items.foldl transFold (st.total_net_flow, st.operations_count, 0)
    let netSign := if r.1 ≥ 0 then "+" else ""
    (Except.ok ("Transaction analysis: " ++ Nat.repr r.2.2 ++ " operations, net flow: "
        ++ netSign ++ pyFormatF0 r.1 ++ " units"),
     .trans i ⟨r.2.1, r.1⟩)
  | .trans i st, _ => (Except.error "data_batch should be a list!", .trans i st)
  | .event i st, .list items =>
    let r := items.foldl eventFold (0, 0, st.events_count, st.error_count)
    (Except.ok ("Event analysis: " ++ Nat.repr r.1 ++ " events, "
        ++ Nat.repr r.2.1 ++ " error detected"),
     .event i ⟨r.2.2.1, r.2.2.2⟩)
  | .event i st, _ => (Except.error "data_batch should be a list!", .event i st)

/-- The filtering rule of `SensorStream.filter_data` and
`TransactionStream.filter_data`: `isinstance(d, str) and d.startswith(criteria)`. -/
def strMatchStarts (c : String) (d : PyVal) : Bool :=
  match d with
  | .str s => strStarts s c
  | _ => false

/-- The filtering rule of `EventStream.filter_data`:
`isinstance(d, str) and d.strip().lower() == criteria.lower()`. -/
def strMatchCI (c : String) (d : PyVal) : Bool :=
  match d with
  | .str s => strLower (strStrip s) == strLower c
  | _ => false

/-- `filter_data` of each `DataStream` subclass (`if not criteria: return
data_batch`, else the variant-specific list comprehension). -/
def DataStream.filter_data (w : DataStream) (batch : List PyVal) (criteria : Option String) :
    List PyVal :=
  match criteria with
  | Option.none => batch
  | Option.some c =>
    if c = "" then batch
    else
      match w with
      | .sensor _ _ => batch.filter (strMatchStarts c)
      | .trans _ _ => batch.filter (strMatchStarts c)
      | .event _ _ => batch.filter (strMatchCI c)

/-- `StreamProcessor.add_stream`: unconditional append to the registry. -/
def StreamProcessor.add_stream (streams : List DataStream) (s : DataStream) :
    List DataStream :=
  streams ++ [s]

/-- `StreamProcessor.process_all`: iterate the registry in order; for each
stream whose id is a key of `batches`, run `process_batch`, appending the
summary on success and `"Error processing <id>: <message>"` on `ValueError`.
The pair also carries the post-call states of all registered streams. -/
def StreamProcessor.process_all : List DataStream → PyDict → List String × List DataStream
  | [], _ => ([], [])
  | w :: rest, batches =>
    match dictLookup batches w.stream_id with
    | Option.some b =>
      let r := w.process_batch b
      let entry :=
        match r.1 with
        | Except.ok s => s
        | Except.error e => "Error processing " ++ w.stream_id ++ ": " ++ e
      let tail := StreamProcessor.process_all rest batches
      (entry :: tail.1, r.2 :: tail.2)
    | Option.none =>
      let tail := StreamProcessor.process_all rest batches
      (tail.1, w :: tail.2)

/-! ### ex2: `nexus_pipeline.py` -/

/-- The three concrete pipeline stages of `src/ex2/nexus_pipeline.py`. -/
inductive Stage where
  | input
  | transform
  | output

/-- `process` of `InputStage`, `TransformStage` and `OutputStage`. -/
def Stage.process : Stage → PyVal → Except String PyVal
  | .input, d =>
    match d with
    | PyVal.none => Except.error "No input data provided"
    | _ => Except.ok (PyVal.dict [("raw", d), ("validated", PyVal.bool true)])
  | .transform, d =>
    match d with
    | PyVal.dict es =>
      if (dictGetD es "validated" PyVal.none).truthy then
        Except.ok (PyVal.dict
          (dictSet (dictSet es "transformed" (PyVal.bool true)) "enriched" (PyVal.bool true)))
      else Except.error "Invalid data format"
    | _ => Except.error "Invalid data format"
  | .output, d =>
    match d with
    | PyVal.dict es =>
      if (dictGetD es "transformed" PyVal.none).truthy then
        Except.ok (PyVal.dict (dictSet es "delivered" (PyVal.bool true)))
      else Except.error "Data not transformed"
    | _ => Except.error "Data not transformed"

structure ProcessingPipeline where
  pipeline_id : String
  stages : List Stage
  records_processed : ℕ

/-- The loop body of `ProcessingPipeline.run_stages`: thread the record
through the stages in order, stopping at the first stage that raises. -/
def runStagesLoop : List Stage → PyVal → Except String PyVal
  | [], d => Except.ok d
  | s :: rest, d =>
    match s.process d with
    | Except.ok d2 => runStagesLoop rest d2
    | Except.error e => Except.error e

/-- `ProcessingPipeline.run_stages`: thread the record through all stages,
then increment `records_processed`; a stage failure propagates and leaves the
counter untouched. -/
def ProcessingPipeline.run_stages (p : ProcessingPipeline) (d : PyVal) :
    Except String PyVal × ProcessingPipeline :=
  match runStagesLoop p.stages d with
  | Except.ok r => (Except.ok r, { p with records_processed := p.records_processed + 1 })
  | Except.error e => (Except.error e, p)

/-- The three `ProcessingPipeline` subclasses (format adapters). -/
inductive AdapterKind where
  | json
  | csv
  | stream

/-- The top-level `isinstance` check at the head of each adapter's `process`. -/
def AdapterKind.typeCheck : AdapterKind → PyVal → Bool
  | .json, .dict _ => true
  | .csv, .str _ => true
  | .stream, .list _ => true
  | _, _ => false

/-- The `ValueError` message raised when the top-level type check fails. -/
def AdapterKind.typeErr : AdapterKind → String
  | .json => "JSON adapter requires dict input"
  | .csv => "CSV adapter requires string input"
  | .stream => "Stream adapter requires list input"

/-- Numeric coercion used by Python comparison and addition (`bool` counts as
an int); `None` signals a `TypeError`. -/
def pyToNum : PyVal → Option ℚ
  | .bool b => Option.some (if b then 1 else 0)
  | .int n => Option.some (n : ℚ)
  | .float q => Option.some q
  | _ => Option.none

def pyTypeName : PyVal → String
  | .none => "NoneType"
  | .bool _ => "bool"
  | .int _ => "int"
  | .float _ => "float"
  | .str _ => "str"
  | .list _ => "list"
  | .dict _ => "dict"

/-- The summary step of `JSONAdapter.process` (after `run_stages`): reads
`value` and `unit` from the record it is handed, classifies against 50, and
converts a `TypeError` from the comparison into a `ValueError`. -/
def jsonSummary (es : PyDict) : Except String String :=
  let value := dictGetD es "value" (PyVal.int 0)
  let unit := dictGetD es "unit" (PyVal.str "")
  match pyToNum value with
  | Option.some r =>
    let status := if r < 50 then "Normal range" else "Warning"
    Except.ok ("Processed temperature reading: " ++ pyStr value ++ "°" ++ pyStr unit
      ++ " (" ++ status ++ ")")
  | Option.none =>
    Except.error ("JSON processing error: '<' not supported between instances of '"
      ++ pyTypeName value ++ "' and 'int'")

/-- The summary step of `CSVAdapter.process`: count the non-blank lines of
the stripped input. -/
def csvSummary (s : String) : Except String String :=
  let rows := (splitLinesCL (strStrip s).data).filter
      (fun r => !(strStrip ⟨r⟩).data.isEmpty)
  Except.ok ("User activity logged: " ++ Nat.repr rows.length ++ " actions processed")

/-- Python `sum(xs)` over the elements of a list, raising a `TypeError` at
the first non-numeric element. -/
def sumNums : List PyVal → Except String ℚ
  | [] => Except.ok 0
  | x :: xs =>
    match pyToNum x with
    | Option.some v =>
      match sumNums xs with
      | Except.ok s => Except.ok (v + s)
      | Except.error e => Except.error e
    | Option.none =>
      Except.error ("unsupported operand type(s) for +: 'int' and '"
        ++ pyTypeName x ++ "'")

/-- The summary step of `StreamAdapter.process`: count and average of the
numeric list, converting a `TypeError` from `sum` into a `ValueError`. -/
def streamSummary (xs : List PyVal) : Except String String :=
  match sumNums xs with
  | Except.ok s =>
    let count := xs.length
    let avg : ℚ := if count > 0 then s / (count : ℚ) else 0
    Except.ok ("Stream summary: " ++ Nat.repr count ++ " readings, avg: "
      ++ pyFormatF1 avg ++ "°C")
  | Except.error e => Except.error ("Stream processing error: " ++ e)

/-- The format-specific summary step of each adapter, dispatched on the kind;
the fall-through arm is unreachable from `Adapter.process` because the type
check has already matched the shape. -/
def adapterSummary : AdapterKind → PyVal → Except String String
  | .json, .dict es => jsonSummary es
  | .csv, .str s => csvSummary s
  | .stream, .list xs => streamSummary xs
  | k, _ => Except.error k.typeErr

structure Adapter where
  kind : AdapterKind
  pipe : ProcessingPipeline

/-- `process` of `JSONAdapter`/`CSVAdapter`/`StreamAdapter`, as written in
the source: check the top-level type, call `self.run_stages(data)` for its
counter side effect, then build the summary from the ORIGINAL input `data`
(the value returned by `run_stages` is discarded). -/
def Adapter.process (a : Adapter) (d : PyVal) : Except String String × Adapter :=
  if a.kind.typeCheck d then
    match a.pipe.run_stages d with
    | (Except.ok _, p2) => (adapterSummary a.kind d, { a with pipe := p2 })
    | (Except.error e, p2) => (Except.error e, { a with pipe := p2 })
  else
    (Except.error a.kind.typeErr, a)

/-- `NexusManager.add_pipeline`: unconditional append to the registry. -/
def NexusManager.add_pipeline (pipes : List Adapter) (a : Adapter) : List Adapter :=
  pipes ++ [a]

/-- `NexusManager.process_all`: same dispatch loop as
`StreamProcessor.process_all`, over adapters. -/
def NexusManager.process_all : List Adapter → PyDict → List String × List Adapter
  | [], _ => ([], [])
  | a :: rest, dataMap =>
    match dictLookup dataMap a.pipe.pipeline_id with
    | Option.some d =>
      let r := a.process d
      let entry :=
        match r.1 with
        | Except.ok s => s
        | Except.error e => "Error processing " ++ a.pipe.pipeline_id ++ ": " ++ e
      let tail := NexusManager.process_all rest dataMap
      (entry :: tail.1, r.2 :: tail.2)
    | Option.none =>
      let tail := NexusManager.process_all rest dataMap
      (tail.1, a :: tail.2)

/-- Modelled from the spec: the spec's section 4.2 states that the pipeline
threads one record through all stages "before handing the record to a
format-specific adapter step".  This variant of the adapter `process` hands
the record produced by the final stage (the result of `run_stages`) to the
summary step; the source instead hands the original input.  It exists only to
be compared with `Adapter.process`. -/
def Adapter.processFinalRecord (a : Adapter) (d : PyVal) : Except String String × Adapter :=
  if a.kind.typeCheck d then
    match a.pipe.run_stages d with
    | (Except.ok r, p2) => (adapterSummary a.kind r, { a with pipe := p2 })
    | (Except.error e, p2) => (Except.error e, { a with pipe := p2 })
  else
    (Except.error a.kind.typeErr, a)

/-! ### Derived views used by the claim statements -/

/-- The net-flow contribution of one item, per the spec's description of the
financial worker: a parseable `buy` adds its number, a parseable `sell`
subtracts it, everything else contributes nothing. -/
def transItemFlow (item : PyVal) : ℚ :=
  match transItemVal item with
  | Option.some av =>
    if strLower (strStrip av.1) = "buy" then av.2
    else if strLower (strStrip av.1) = "sell" then -av.2
    else 0
  | Option.none => 0

/-- Total net-flow contribution of a batch. -/
def netContribution (items : List PyVal) : ℚ := (items.map transItemFlow).sum

/-- The `total_net_flow` component of a worker's state (0 for workers that do
not track one). -/
def DataStream.netFlowOf : DataStream → ℚ
  | .trans _ st => st.total_net_flow
  | _ => 0

/-- The variant-specific item-matching rule of `filter_data`: prefix match
for the numeric and financial workers, trimmed case-insensitive equality for
the event worker (with non-strings never matching). -/
def filterRule : DataStream → String → PyVal → Bool
  | .sensor _ _, c => strMatchStarts c
  | .trans _ _, c => strMatchStarts c
  | .event _ _, c => strMatchCI c

/-- Whether an `Except` outcome is a success (the call did not raise). -/
def resOk {α β : Type} : Except α β → Bool
  | Except.ok _ => true
  | Except.error _ => false

instance {α β : Type} [DecidableEq α] [DecidableEq β] : DecidableEq (Except α β) :=
  fun a b =>
    match a, b with
    | Except.ok x, Except.ok y =>
      if h : x = y then Decidable.isTrue (by rw [h])
      else Decidable.isFalse (fun h2 => h (Except.ok.inj h2))
    | Except.error x, Except.error y =>
      if h : x = y then Decidable.isTrue (by rw [h])
      else Decidable.isFalse (fun h2 => h (Except.error.inj h2))
    | Except.ok _, Except.error _ => Decidable.isFalse (fun h2 => Except.noConfusion h2)
    | Except.error _, Except.ok _ => Decidable.isFalse (fun h2 => Except.noConfusion h2)

/-- The result-slot entry that `process_all` produces for one matched worker:
the summary on success, `"Error processing <id>: <message>"` on failure. -/
def dispatchEntry (w : DataStream) (b : PyVal) : String :=
  match (w.process_batch b).1 with
  | Except.ok s => s
  | Except.error e => "Error processing " ++ w.stream_id ++ ": " ++ e

/-- The result-slot entry that `NexusManager.process_all` produces for one
matched pipeline. -/
def nexusEntry (a : Adapter) (d : PyVal) : String :=
  match (a.process d).1 with
  | Except.ok s => s
  | Except.error e => "Error processing " ++ a.pipe.pipeline_id ++ ": " ++ e

/-! ### Helper lemmas -/

theorem process_all_fst (streams : List DataStream) (batches : PyDict) :
    (StreamProcessor.process_all streams batches).1
      = (streams.filter (fun w => (dictLookup batches w.stream_id).isSome)).map
          (fun w => dispatchEntry w (dictGetD batches w.stream_id PyVal.none)) := by
  induction streams with
  | nil => rfl
  | cons w rest ih =>
    cases h : dictLookup batches w.stream_id with
    | none => simp [StreamProcessor.process_all, h, ih]
    | some b => simp [StreamProcessor.process_all, h, ih, dispatchEntry, dictGetD]

theorem nexus_process_all_fst (pipes : List Adapter) (dataMap : PyDict) :
    (NexusManager.process_all pipes dataMap).1
      = (pipes.filter (fun a => (dictLookup dataMap a.pipe.pipeline_id).isSome)).map
          (fun a => nexusEntry a (dictGetD dataMap a.pipe.pipeline_id PyVal.none)) := by
  induction pipes with
  | nil => rfl
  | cons a rest ih =>
    cases h : dictLookup dataMap a.pipe.pipeline_id with
    | none => simp [NexusManager.process_all, h, ih]
    | some d => simp [NexusManager.process_all, h, ih, nexusEntry, dictGetD]

theorem process_all_lookup_ext (ws : List DataStream) (b1 b2 : PyDict)
    (h : ∀ k, dictLookup b1 k = dictLookup b2 k) :
    StreamProcessor.process_all ws b1 = StreamProcessor.process_all ws b2 := by
  induction ws with
  | nil => rfl
  | cons w rest ih =>
    simp only [StreamProcessor.process_all, h w.stream_id, ih]

theorem transFold_spec (items : List PyVal) (nf : ℚ) (ops cnt : ℕ) :
    items.foldl transFold (nf, ops, cnt)
      = (nf + netContribution items,
         ops + (items.filterMap transItemVal).length,
         cnt + (items.filterMap transItemVal).length) := by
  induction items generalizing nf ops cnt with
  | nil => simp [netContribution]
  | cons x xs ih =>
    cases hx : transItemVal x with
    | none =>
      simp only [List.foldl_cons, transFold, hx, ih, netContribution, List.map_cons,
        List.sum_cons, transItemFlow, List.filterMap_cons_none hx]
      norm_num
    | some av =>
      simp only [List.foldl_cons, transFold, hx, ih, netContribution, List.map_cons,
        List.sum_cons, transItemFlow, List.filterMap_cons_some hx, List.length_cons,
        Prod.mk.injEq]
      refine ⟨?_, by omega, by omega⟩
      split_ifs <;> ring

theorem sensorFold_spec (items : List PyVal) (h : List ℚ) (s : ℚ) (n : ℕ) :
    items.foldl sensorFold (h, s, n)
      = (h ++ items.filterMap sensorItemVal,
         s + (items.filterMap sensorItemVal).sum,
         n + (items.filterMap sensorItemVal).length) := by
  induction items generalizing h s n with
  | nil => simp
  | cons x xs ih =>
    cases hx : sensorItemVal x with
    | none => simp [sensorFold, hx, ih, List.filterMap_cons_none hx]
    | some v =>
      simp only [List.foldl_cons, sensorFold, hx, ih, List.filterMap_cons_some hx,
        List.sum_cons, List.length_cons, Prod.mk.injEq]
      refine ⟨by simp, by ring, by omega⟩

theorem filterMap_length_of_all_isSome {α β : Type} (f : α → Option β) (l : List α)
    (h : l.all (fun a => (f a).isSome) = true) :
    (l.filterMap f).length = l.length := by
  induction l with
  | nil => rfl
  | cons x xs ih =>
    simp only [List.all_cons, Bool.and_eq_true] at h
    cases hx : f x with
    | none => rw [hx] at h; simp at h
    | some v => simp [List.filterMap_cons_some hx, ih h.2]

/-! ### Claim theorems -/

/-- C1: for every registered worker/pipeline whose identifier is a key of the
batch-map passed to `process_all`, the orchestrator invokes its `process`;
on a `ValidationError` it appends `"Error processing <id>: <message>"` and
continues, so the returned list has exactly one entry per matched worker
(error entries for the failing ones, normal summaries for the rest) and the
call never raises — for every batch-map, including ones with malformed
(non-sequence) batches.  The result list is exactly the map of the per-worker
outcome over the matched sublist of the registry, for both orchestrators. -/
theorem dispatch_partial_failure (streams : List DataStream) (batches : PyDict)
    (pipes : List Adapter) (dataMap : PyDict) :
    (StreamProcessor.process_all streams batches).1
      = (streams.filter (fun w => (dictLookup batches w.stream_id).isSome)).map
          (fun w => dispatchEntry w (dictGetD batches w.stream_id PyVal.none))
    ∧ (StreamProcessor.process_all streams batches).1.length
      = (streams.filter (fun w => (dictLookup batches w.stream_id).isSome)).length
    ∧ (NexusManager.process_all pipes dataMap).1
      = (pipes.filter (fun a => (dictLookup dataMap a.pipe.pipeline_id).isSome)).map
          (fun a => nexusEntry a (dictGetD dataMap a.pipe.pipeline_id PyVal.none)) := by
  refine ⟨process_all_fst streams batches, ?_, nexus_process_all_fst pipes dataMap⟩
  rw [process_all_fst streams batches, List.length_map]

/-- C2: registering workers in order `[A, B, C]` and dispatching a batch-map
containing all three identifiers returns the results in registration order
`[A, B, C]`; the output is independent of the insertion order of the
batch-map's keys (any two batch-maps with the same key-to-batch lookup give
identical output). -/
theorem dispatch_registration_order (A B C : DataStream) (b1 b2 : PyDict)
    (bA bB bC : PyVal)
    (hA : dictLookup b1 A.stream_id = Option.some bA)
    (hB : dictLookup b1 B.stream_id = Option.some bB)
    (hC : dictLookup b1 C.stream_id = Option.some bC)
    (hext : ∀ k, dictLookup b1 k = dictLookup b2 k) :
    (StreamProcessor.process_all [A, B, C] b1).1
      = [dispatchEntry A bA, dispatchEntry B bB, dispatchEntry C bC]
    ∧ StreamProcessor.process_all [A, B, C] b1
      = StreamProcessor.process_all [A, B, C] b2 := by
  constructor
  · simp [StreamProcessor.process_all, hA, hB, hC, dispatchEntry]
  · exact process_all_lookup_ext _ b1 b2 hext

/-- C2 witness: three concretely registered workers and two batch-maps whose
keys were inserted in opposite orders. -/
theorem dispatch_registration_order_witness :
    (StreamProcessor.process_all
        [DataStream.sensor "A" ⟨[]⟩, DataStream.trans "B" ⟨0, 0⟩, DataStream.event "C" ⟨0, 0⟩]
        [("A", PyVal.list [PyVal.str "t:1"]), ("B", PyVal.list [PyVal.str "buy:2"]),
         ("C", PyVal.list [PyVal.str "error"])]).1
      = [dispatchEntry (DataStream.sensor "A" ⟨[]⟩) (PyVal.list [PyVal.str "t:1"]),
         dispatchEntry (DataStream.trans "B" ⟨0, 0⟩) (PyVal.list [PyVal.str "buy:2"]),
         dispatchEntry (DataStream.event "C" ⟨0, 0⟩) (PyVal.list [PyVal.str "error"])]
    ∧ StreamProcessor.process_all
        [DataStream.sensor "A" ⟨[]⟩, DataStream.trans "B" ⟨0, 0⟩, DataStream.event "C" ⟨0, 0⟩]
        [("A", PyVal.list [PyVal.str "t:1"]), ("B", PyVal.list [PyVal.str "buy:2"]),
         ("C", PyVal.list [PyVal.str "error"])]
      = StreamProcessor.process_all
        [DataStream.sensor "A" ⟨[]⟩, DataStream.trans "B" ⟨0, 0⟩, DataStream.event "C" ⟨0, 0⟩]
        [("C", PyVal.list [PyVal.str "error"]), ("B", PyVal.list [PyVal.str "buy:2"]),
         ("A", PyVal.list [PyVal.str "t:1"])] := by
  apply dispatch_registration_order
  · rfl
  · rfl
  · rfl
  · intro k
    by_cases h1 : "A" = k <;> by_cases h2 : "B" = k <;> by_cases h3 : "C" = k <;>
      simp_all [dictLookup] <;>
      first
        | exact absurd (h1.trans h2.symm) (by decide)
        | exact absurd (h1.trans h3.symm) (by decide)
        | exact absurd (h2.trans h3.symm) (by decide)

/-- C3 counterexample: each worker variant, given a batch that IS a sequence
but none of whose elements matches the variant's expected per-item format,
returns a normal summary instead of failing — refuting the claim's part (ii)
at concrete inputs (a colon-free string, an unparseable number, a non-string
item). -/
theorem process_batch_no_match_succeeds :
    (DataStream.process_batch (.sensor "S" ⟨[]⟩) (.list [.str "hello"])).1
      = Except.ok "Sensor analysis: 0 readings processed, avg: 0.0"
    ∧ (DataStream.process_batch (.trans "T" ⟨0, 0⟩) (.list [.str "abc:xyz"])).1
      = Except.ok "Transaction analysis: 0 operations, net flow: +0 units"
    ∧ (DataStream.process_batch (.event "E" ⟨0, 0⟩) (.list [.int 7])).1
      = Except.ok "Event analysis: 0 events, 0 error detected" := by
  refine ⟨by decide, by decide, by decide⟩

/-- C3 amended: for every worker variant, `process_batch` fails with a
`ValidationError` exactly when the batch is not a sequence (message
`"data_batch should be a list!"`); a batch that is a sequence always
succeeds, even when no element matches the variant's expected per-item
format. -/
theorem process_batch_error_iff_not_list (w : DataStream) (v : PyVal) :
    (v.isList = false →
      (w.process_batch v).1 = Except.error "data_batch should be a list!")
    ∧ (v.isList = true → resOk (w.process_batch v).1 = true) := by
  cases w <;> cases v <;> simp [DataStream.process_batch, PyVal.isList, resOk]

/-- C3 amended witness: a non-list batch fails, a list batch with no matching
element succeeds. -/
theorem process_batch_error_iff_not_list_witness :
    ((PyVal.str "oops").isList = false
      ∧ (DataStream.process_batch (.sensor "S" ⟨[]⟩) (PyVal.str "oops")).1
          = Except.error "data_batch should be a list!")
    ∧ ((PyVal.list [PyVal.int 7]).isList = true
      ∧ resOk (DataStream.process_batch (.event "E" ⟨0, 0⟩) (PyVal.list [PyVal.int 7])).1
          = true) := by
  refine ⟨⟨rfl, ?_⟩, ⟨rfl, ?_⟩⟩
  · exact (process_batch_error_iff_not_list (.sensor "S" ⟨[]⟩) (PyVal.str "oops")).1 rfl
  · exact (process_batch_error_iff_not_list (.event "E" ⟨0, 0⟩) (PyVal.list [PyVal.int 7])).2 rfl

/-- C4: `add_stream` appends unconditionally and never rejects a duplicate
identifier; after registering two workers sharing an id, dispatching a
batch-map containing that id invokes `process_batch` on both workers and each
contributes its own result entry. -/
theorem register_append_duplicates_fire (ss : List DataStream) (w w1 w2 : DataStream)
    (batches : PyDict) (b : PyVal)
    (hid : w2.stream_id = w1.stream_id)
    (hb : dictLookup batches w1.stream_id = Option.some b) :
    StreamProcessor.add_stream ss w = ss ++ [w]
    ∧ (StreamProcessor.process_all [w1, w2] batches).1
        = [dispatchEntry w1 b, dispatchEntry w2 b] := by
  refine ⟨rfl, ?_⟩
  simp [StreamProcessor.process_all, hb, hid, dispatchEntry]

/-- C4 witness: two transaction workers registered under the same id `"X"`
with different accumulated states; both fire on the one batch keyed `"X"`
and produce their own (distinct) summaries. -/
theorem register_append_duplicates_fire_witness :
    StreamProcessor.add_stream [] (DataStream.event "E" ⟨0, 0⟩)
        = [DataStream.event "E" ⟨0, 0⟩]
    ∧ (StreamProcessor.process_all
        [DataStream.trans "X" ⟨0, 0⟩, DataStream.trans "X" ⟨0, 100⟩]
        [("X", PyVal.list [PyVal.str "buy:5"])]).1
      = ["Transaction analysis: 1 operations, net flow: +5 units",
         "Transaction analysis: 1 operations, net flow: +105 units"] := by
  have h := register_append_duplicates_fire [] (DataStream.event "E" ⟨0, 0⟩)
      (DataStream.trans "X" ⟨0, 0⟩) (DataStream.trans "X" ⟨0, 100⟩)
      [("X", PyVal.list [PyVal.str "buy:5"])] (PyVal.list [PyVal.str "buy:5"]) rfl rfl
  exact ⟨h.1, h.2.trans (by decide)⟩

/-- C5 counterexample: a JSON adapter whose input holds `value = 55`: the
source hands the ORIGINAL input to the summary step (yielding `55°C` and
`Warning`), while the variant that hands the record produced by the final
stage — which has no `value`/`unit` keys — would yield `0°` and
`Normal range`; the two observable results differ. -/
theorem adapter_summary_uses_original_input :
    (Adapter.process
        ⟨AdapterKind.json, ⟨"JSON_001", [Stage.input, Stage.transform, Stage.output], 0⟩⟩
        (PyVal.dict [("value", PyVal.int 55), ("unit", PyVal.str "C")])).1
      = Except.ok "Processed temperature reading: 55°C (Warning)"
    ∧ (Adapter.processFinalRecord
        ⟨AdapterKind.json, ⟨"JSON_001", [Stage.input, Stage.transform, Stage.output], 0⟩⟩
        (PyVal.dict [("value", PyVal.int 55), ("unit", PyVal.str "C")])).1
      = Except.ok "Processed temperature reading: 0° (Normal range)"
    ∧ ¬ (Adapter.process
        ⟨AdapterKind.json, ⟨"JSON_001", [Stage.input, Stage.transform, Stage.output], 0⟩⟩
        (PyVal.dict [("value", PyVal.int 55), ("unit", PyVal.str "C")])).1
      = (Adapter.processFinalRecord
        ⟨AdapterKind.json, ⟨"JSON_001", [Stage.input, Stage.transform, Stage.output], 0⟩⟩
        (PyVal.dict [("value", PyVal.int 55), ("unit", PyVal.str "C")])).1 := by
  have h1 : (Adapter.process
      ⟨AdapterKind.json, ⟨"JSON_001", [Stage.input, Stage.transform, Stage.output], 0⟩⟩
      (PyVal.dict [("value", PyVal.int 55), ("unit", PyVal.str "C")])).1
      = Except.ok "Processed temperature reading: 55°C (Warning)" := by decide
  have h2 : (Adapter.processFinalRecord
      ⟨AdapterKind.json, ⟨"JSON_001", [Stage.input, Stage.transform, Stage.output], 0⟩⟩
      (PyVal.dict [("value", PyVal.int 55), ("unit", PyVal.str "C")])).1
      = Except.ok "Processed temperature reading: 0° (Normal range)" := by decide
  refine ⟨h1, h2, ?_⟩
  rw [h1, h2]
  decide

/-- C5 amended: for every adapter whose input passes the top-level type check
and whose stage sequence completes without error, the pipeline threads the
record through all stages in order, increments `records_processed` by exactly
one, and the value handed to the format-specific summary step is the
adapter's ORIGINAL input (the record produced by the final stage is
discarded), the result being that summary together with the bumped
counter. -/
theorem adapter_success_spec (a : Adapter) (d : PyVal) (r : PyVal)
    (ht : a.kind.typeCheck d = true)
    (hs : runStagesLoop a.pipe.stages d = Except.ok r) :
    a.pipe.run_stages d
      = (Except.ok r, { a.pipe with records_processed := a.pipe.records_processed + 1 })
    ∧ a.process d
      = (adapterSummary a.kind d,
         { a with pipe := { a.pipe with records_processed := a.pipe.records_processed + 1 } }) := by
  have h1 : a.pipe.run_stages d
      = (Except.ok r, { a.pipe with records_processed := a.pipe.records_processed + 1 }) := by
    simp [ProcessingPipeline.run_stages, hs]
  exact ⟨h1, by simp [Adapter.process, ht, h1]⟩

/-- C5 amended witness: a concrete JSON adapter with the three stages on an
in-range reading. -/
theorem adapter_success_spec_witness :
    (AdapterKind.json.typeCheck (PyVal.dict [("value", PyVal.int 23), ("unit", PyVal.str "C")])
        = true)
    ∧ runStagesLoop [Stage.input, Stage.transform, Stage.output]
        (PyVal.dict [("value", PyVal.int 23), ("unit", PyVal.str "C")])
      = Except.ok (PyVal.dict
          [("raw", PyVal.dict [("value", PyVal.int 23), ("unit", PyVal.str "C")]),
           ("validated", PyVal.bool true), ("transformed", PyVal.bool true),
           ("enriched", PyVal.bool true), ("delivered", PyVal.bool true)])
    ∧ Adapter.process
        ⟨AdapterKind.json, ⟨"JSON_001", [Stage.input, Stage.transform, Stage.output], 7⟩⟩
        (PyVal.dict [("value", PyVal.int 23), ("unit", PyVal.str "C")])
      = (Except.ok "Processed temperature reading: 23°C (Normal range)",
         ⟨AdapterKind.json, ⟨"JSON_001", [Stage.input, Stage.transform, Stage.output], 8⟩⟩) := by
  refine ⟨rfl, rfl, ?_⟩
  have h := (adapter_success_spec
      ⟨AdapterKind.json, ⟨"JSON_001", [Stage.input, Stage.transform, Stage.output], 7⟩⟩
      (PyVal.dict [("value", PyVal.int 23), ("unit", PyVal.str "C")])
      (PyVal.dict
          [("raw", PyVal.dict [("value", PyVal.int 23), ("unit", PyVal.str "C")]),
           ("validated", PyVal.bool true), ("transformed", PyVal.bool true),
           ("enriched", PyVal.bool true), ("delivered", PyVal.bool true)])
      rfl rfl).2
  rw [h]
  have hsum : adapterSummary AdapterKind.json
      (PyVal.dict [("value", PyVal.int 23), ("unit", PyVal.str "C")])
      = Except.ok "Processed temperature reading: 23°C (Normal range)" := by decide
  rw [hsum]

/-- C6: for every financial batch, a parseable item whose trimmed,
lowercased action is `"buy"` adds its number to the cumulative net-flow
total and `"sell"` subtracts it (others leave it unchanged); the emitted
summary formats the CUMULATIVE total with no decimal places and a leading
`"+"` when it is non-negative; and processing
`["buy:100", "sell:150", "buy:75"]` from a fresh worker yields
`"net flow: +25 units"`. -/
theorem transaction_net_flow (i : String) (st : TransState) (items : List PyVal) :
    ((DataStream.trans i st).process_batch (PyVal.list items)).2.netFlowOf
      = st.total_net_flow + netContribution items
    ∧ ((DataStream.trans i st).process_batch (PyVal.list items)).1
      = Except.ok ("Transaction analysis: "
          ++ Nat.repr (items.filterMap transItemVal).length ++ " operations, net flow: "
          ++ (if st.total_net_flow + netContribution items ≥ 0 then "+" else "")
          ++ pyFormatF0 (st.total_net_flow + netContribution items) ++ " units")
    ∧ ((DataStream.trans "TRANS_001" ⟨0, 0⟩).process_batch
        (PyVal.list [PyVal.str "buy:100", PyVal.str "sell:150", PyVal.str "buy:75"])).1
      = Except.ok "Transaction analysis: 3 operations, net flow: +25 units" := by
  refine ⟨?_, ?_, by decide⟩
  · simp [DataStream.process_batch, transFold_spec, DataStream.netFlowOf]
  · simp [DataStream.process_batch, transFold_spec]

/-- C7: for every batch all of whose items are well-formed
`"label:number"` strings, the numeric worker reports THIS batch's average,
equal to the batch's sum divided by its count (independent of the worker's
accumulated history); an empty batch reports average `0.0` and count 0;
unparseable items are silently skipped and excluded from the count, never
causing an error; and the history is extended by exactly the parsed
values. -/
theorem sensor_batch_average (i : String) (st : SensorState) (items : List PyVal)
    (hwf : items.all (fun it => (sensorItemVal it).isSome) = true) :
    ((DataStream.sensor i st).process_batch (PyVal.list items)).1
      = Except.ok ("Sensor analysis: " ++ Nat.repr items.length
          ++ " readings processed, avg: "
          ++ pyReprFloat (if 0 < items.length then
              (items.filterMap sensorItemVal).sum / (items.length : ℚ) else 0))
    ∧ ((DataStream.sensor i st).process_batch (PyVal.list [])).1
      = Except.ok "Sensor analysis: 0 readings processed, avg: 0.0"
    ∧ (∀ items2 : List PyVal,
        ((DataStream.sensor i st).process_batch (PyVal.list items2)).1
          = Except.ok ("Sensor analysis: "
              ++ Nat.repr (items2.filterMap sensorItemVal).length
              ++ " readings processed, avg: "
              ++ pyReprFloat (if 0 < (items2.filterMap sensorItemVal).length then
                  (items2.filterMap sensorItemVal).sum
                    / ((items2.filterMap sensorItemVal).length : ℚ) else 0)))
    ∧ ((DataStream.sensor i st).process_batch (PyVal.list items)).2
      = DataStream.sensor i ⟨st.history ++ items.filterMap sensorItemVal⟩ := by
  have hgen : ∀ items2 : List PyVal,
      ((DataStream.sensor i st).process_batch (PyVal.list items2)).1
        = Except.ok ("Sensor analysis: "
            ++ Nat.repr (items2.filterMap sensorItemVal).length
            ++ " readings processed, avg: "
            ++ pyReprFloat (if 0 < (items2.filterMap sensorItemVal).length then
                (items2.filterMap sensorItemVal).sum
                  / ((items2.filterMap sensorItemVal).length : ℚ) else 0)) := by
    intro items2
    simp only [DataStream.process_batch, sensorFold_spec, zero_add, gt_iff_lt]
  refine ⟨?_, ?_, hgen, ?_⟩
  · rw [hgen items, filterMap_length_of_all_isSome _ _ hwf]
  · exact (hgen []).trans (by decide)
  · simp only [DataStream.process_batch, sensorFold_spec, zero_add]

/-- C7 witness: a two-item well-formed batch whose average 1.5 is the batch
sum 3 over the batch count 2. -/
theorem sensor_batch_average_witness :
    ([PyVal.str "t:1", PyVal.str "h:2"].all (fun it => (sensorItemVal it).isSome) = true)
    ∧ ((DataStream.sensor "S" ⟨[]⟩).process_batch
        (PyVal.list [PyVal.str "t:1", PyVal.str "h:2"])).1
      = Except.ok "Sensor analysis: 2 readings processed, avg: 1.5" := by
  refine ⟨by decide, ?_⟩
  have h := (sensor_batch_average "S" ⟨[]⟩ [PyVal.str "t:1", PyVal.str "h:2"] (by decide)).1
  exact h.trans (by decide)

/-- C8: for every worker variant and every batch, `filter_data` with absent
or empty criteria returns the batch unchanged; with non-empty criteria it
returns exactly the items matching the variant's rule (prefix match for the
numeric and financial workers, trimmed case-insensitive equality for the
event worker), as an order-preserving subsequence of the batch. -/
theorem filter_data_spec (w : DataStream) (batch : List PyVal) (c : String)
    (hc : c ≠ "") :
    w.filter_data batch Option.none = batch
    ∧ w.filter_data batch (Option.some "") = batch
    ∧ w.filter_data batch (Option.some c) = batch.filter (filterRule w c)
    ∧ (w.filter_data batch (Option.some c)).Sublist batch := by
  have h3 : w.filter_data batch (Option.some c) = batch.filter (filterRule w c) := by
    cases w <;> simp [DataStream.filter_data, filterRule, hc]
  refine ⟨rfl, by simp [DataStream.filter_data], h3, ?_⟩
  rw [h3]
  exact List.filter_sublist batch

/-- C8 witness: the event worker with non-empty criteria `"ERROR"` keeps
exactly the one item that matches after trimming and lowercasing, dropping a
non-matching string and a non-string item. -/
theorem filter_data_spec_witness :
    ("ERROR" ≠ "")
    ∧ DataStream.filter_data (.event "E" ⟨0, 0⟩)
        [PyVal.str " Error ", PyVal.str "login", PyVal.int 3] (Option.some "ERROR")
      = [PyVal.str " Error "]
    ∧ DataStream.filter_data (.event "E" ⟨0, 0⟩)
        [PyVal.str " Error ", PyVal.str "login", PyVal.int 3] Option.none
      = [PyVal.str " Error ", PyVal.str "login", PyVal.int 3] := by
  have h := filter_data_spec (.event "E" ⟨0, 0⟩)
      [PyVal.str " Error ", PyVal.str "login", PyVal.int 3] "ERROR" (by decide)
  exact ⟨by decide, h.2.2.1.trans rfl, h.1⟩

/-- C9 counterexample: `TransformStage.process` on the record
`{"validated": False}` fails with `"Invalid data format"` even though the
`"validated"` flag is present (not absent) — the stage requires the flag to
be truthy, not merely present, refuting "fails exactly when the flag is
absent". -/
theorem transform_stage_falsy_flag_fails :
    Stage.process .transform (PyVal.dict [("validated", PyVal.bool false)])
      = Except.error "Invalid data format"
    ∧ dictLookup [("validated", PyVal.bool false)] "validated"
      = Option.some (PyVal.bool false) := by
  exact ⟨rfl, rfl⟩

/-- C9 amended: Stage 1 fails exactly when its input is the `None` sentinel
and otherwise wraps it as `{"raw": input, "validated": True}`; Stage 2
(resp. Stage 3) fails exactly when the input is not a mapping or its
`"validated"` (resp. `"transformed"`) entry is missing or falsy, and
otherwise sets the `"transformed"` and `"enriched"` (resp. `"delivered"`)
flags. -/
theorem stage_process_spec (d : PyVal) (es : List (String × PyVal)) :
    (Stage.process .input d = Except.error "No input data provided" ↔ d.isNone = true)
    ∧ (d.isNone = false →
        Stage.process .input d
          = Except.ok (PyVal.dict [("raw", d), ("validated", PyVal.bool true)]))
    ∧ (resOk (Stage.process .transform d) = true ↔
        ∃ es2, d = PyVal.dict es2 ∧ (dictGetD es2 "validated" PyVal.none).truthy = true)
    ∧ (Stage.process .transform (PyVal.dict es)
        = if (dictGetD es "validated" PyVal.none).truthy then
            Except.ok (PyVal.dict (dictSet (dictSet es "transformed" (PyVal.bool true))
              "enriched" (PyVal.bool true)))
          else Except.error "Invalid data format")
    ∧ (resOk (Stage.process .output d) = true ↔
        ∃ es2, d = PyVal.dict es2 ∧ (dictGetD es2 "transformed" PyVal.none).truthy = true)
    ∧ (Stage.process .output (PyVal.dict es)
        = if (dictGetD es "transformed" PyVal.none).truthy then
            Except.ok (PyVal.dict (dictSet es "delivered" (PyVal.bool true)))
          else Except.error "Data not transformed") := by
  refine ⟨?_, ?_, ?_, ?_, ?_, ?_⟩
  · cases d <;> simp [Stage.process, PyVal.isNone]
  · cases d <;> simp [Stage.process, PyVal.isNone]
  · cases d <;> simp [Stage.process, resOk]
    split_ifs <;> simp_all [resOk]
  · simp [Stage.process]
  · cases d <;> simp [Stage.process, resOk]
    split_ifs <;> simp_all [resOk]
  · simp [Stage.process]

/-- C9 amended witness: a non-`None` input through Stage 1, a truthy
`"validated"` record through Stage 2, and a falsy-flag record refused by
Stage 3. -/
theorem stage_process_spec_witness :
    ((PyVal.int 5).isNone = false
      ∧ Stage.process .input (PyVal.int 5)
        = Except.ok (PyVal.dict [("raw", PyVal.int 5), ("validated", PyVal.bool true)]))
    ∧ Stage.process .transform (PyVal.dict [("validated", PyVal.bool true)])
        = Except.ok (PyVal.dict [("validated", PyVal.bool true),
            ("transformed", PyVal.bool true), ("enriched", PyVal.bool true)])
    ∧ Stage.process .output (PyVal.dict [("transformed", PyVal.bool false)])
        = Except.error "Data not transformed" := by
  refine ⟨⟨rfl, (stage_process_spec (PyVal.int 5) []).2.1 rfl⟩, ?_, ?_⟩
  · exact ((stage_process_spec (PyVal.int 5)
      [("validated", PyVal.bool true)]).2.2.2.1).trans rfl
  · exact ((stage_process_spec (PyVal.int 5)
      [("transformed", PyVal.bool false)]).2.2.2.2.2).trans rfl

/-- C10: whenever a worker's `process_batch` raises (which happens exactly
when the input is not a list), the worker's accumulated state is unchanged;
and when an adapter's `process` raises because of a failed top-level type
check or a failed stage, the pipeline — in particular its
`records_processed` counter — is unchanged. -/
theorem failed_process_preserves_state :
    (∀ (w : DataStream) (v : PyVal) (e : String),
      (w.process_batch v).1 = Except.error e → (w.process_batch v).2 = w)
    ∧ (∀ (a : Adapter) (d : PyVal),
        a.kind.typeCheck d = false → (a.process d).2 = a)
    ∧ (∀ (a : Adapter) (d : PyVal) (e : String),
        a.kind.typeCheck d = true → runStagesLoop a.pipe.stages d = Except.error e →
        (a.process d).2 = a) := by
  refine ⟨?_, ?_, ?_⟩
  · intro w v e h
    cases w <;> cases v <;> simp_all [DataStream.process_batch]
  · intro a d h
    simp [Adapter.process, h]
  · intro a d e ht hs
    simp [Adapter.process, ht, ProcessingPipeline.run_stages, hs]

/-- C10 witness: a sensor worker fed a non-list batch keeps its state; a
JSON adapter fed a string keeps its pipeline; a CSV adapter whose transform
stage fails keeps its counter. -/
theorem failed_process_preserves_state_witness :
    (((DataStream.sensor "S" ⟨[]⟩).process_batch (PyVal.str "x")).1
        = Except.error "data_batch should be a list!"
      ∧ ((DataStream.sensor "S" ⟨[]⟩).process_batch (PyVal.str "x")).2
        = DataStream.sensor "S" ⟨[]⟩)
    ∧ (AdapterKind.json.typeCheck (PyVal.str "x") = false
      ∧ (Adapter.process ⟨AdapterKind.json, ⟨"J", [Stage.input], 4⟩⟩ (PyVal.str "x")).2
        = ⟨AdapterKind.json, ⟨"J", [Stage.input], 4⟩⟩)
    ∧ (runStagesLoop [Stage.transform] (PyVal.str "y") = Except.error "Invalid data format"
      ∧ (Adapter.process ⟨AdapterKind.csv, ⟨"C", [Stage.transform], 6⟩⟩ (PyVal.str "y")).2
        = ⟨AdapterKind.csv, ⟨"C", [Stage.transform], 6⟩⟩) := by
  refine ⟨⟨rfl, ?_⟩, ⟨rfl, ?_⟩, ⟨rfl, ?_⟩⟩
  · exact failed_process_preserves_state.1 (DataStream.sensor "S" ⟨[]⟩) (PyVal.str "x")
      "data_batch should be a list!" rfl
  · exact failed_process_preserves_state.2.1
      ⟨AdapterKind.json, ⟨"J", [Stage.input], 4⟩⟩ (PyVal.str "x") rfl
  · exact failed_process_preserves_state.2.2
      ⟨AdapterKind.csv, ⟨"C", [Stage.transform], 6⟩⟩ (PyVal.str "y")
      "Invalid data format" rfl rfl
